import Mathlib

/-!
Verification of the NextMove feature-and-classification engine.

This file shallowly embeds the service layer of the repository
(`app/services/feature_extraction.py`, `app/services/ml_service.py`,
`app/services/trip_detection_ml.py`) in Lean and proves the documented
properties of the code.

Modelling conventions:
* Python floats are modelled as rationals (`ℚ`); float literals such as
  `9.81`, `0.5`, `1e-6` become the corresponding exact rationals.
* `numpy` square roots are modelled by `ratSqrt`, a rational square root
  that is exact whenever the reduced numerator and denominator are
  perfect squares (every concrete input used in this file has that
  shape), mirroring the real-valued square root of the library code.
* Python dictionaries keyed by strings become association lists
  (`List (String × ℚ)`); the dictionary method `get(k, 0)` becomes
  `dictGetD`.
* The sklearn numeric layer (scaler transform, random-forest inference)
  is third-party code, not part of the repository; it enters the
  embedding as an abstract environment of functions that may fail
  (`Except Unit`), which is exactly how the service code treats it: an
  opaque callee wrapped in try/except.
-/

attribute [local semireducible] Rat.add Rat.sub Rat.mul Rat.inv Rat.ofScientific

namespace NextMove

/-- One row returned by the trajectory query of `extract_features`
(`app/services/feature_extraction.py`): speed in km/h (nullable) and a
timestamp measured in seconds. -/
structure GpsLog where
  speed : Option ℚ
  timestamp : ℚ
deriving DecidableEq

/-- The guard `logs[i].speed is not None and logs[i].speed < 2.0` used by
both while-loops of the stop-frequency scan in `extract_features`. -/
def isSlow (l : GpsLog) : Bool :=
  match l.speed with
  | none => false
  | some s => decide (s < 2)

mutual
/-- The outer while-loop of the stop-frequency scan in
`extract_features`: advance until a slow sample opens a run. -/
def stopCount : List GpsLog → ℕ
  | [] => 0
  | l :: rest =>
    if isSlow l then stopRun l.timestamp rest else stopCount rest
termination_by structural logs => logs

/-- The inner while-loop of the stop-frequency scan: consume the run
that started at time `t0`; on the first non-slow sample, count the run
when the first-to-first-after delta is at least 30 s and resume the
outer scan after that sample. A run reaching the end of the list is
never counted. -/
def stopRun (t0 : ℚ) : List GpsLog → ℕ
  | [] => 0
  | l :: rest =>
    if isSlow l then stopRun t0 rest
    else (if 30 ≤ l.timestamp - t0 then 1 else 0) + stopCount rest
termination_by structural logs => logs
end

/-- The stop count as the specification words it: decompose the list
into maximal runs of consecutive slow samples; a run contributes one
stop exactly when a sample follows the run and its timestamp is at
least 30 s after the timestamp of the first sample of the run. -/
def specStopFreq : List GpsLog → ℕ
  | [] => 0
  | l :: rest =>
    if isSlow l then
      match h : rest.dropWhile isSlow with
      | [] => 0
      | a :: ys =>
        (if 30 ≤ a.timestamp - l.timestamp then 1 else 0) + specStopFreq ys
    else specStopFreq rest
termination_by logs => logs.length
decreasing_by
  · have hle : (rest.dropWhile isSlow).length ≤ rest.length := by
      clear h
      induction rest with
      | nil => simp [List.dropWhile]
      | cons b t ih =>
        by_cases hb : isSlow b
        · rw [List.dropWhile_cons_of_pos hb]
          simp only [List.length_cons]
          omega
        · rw [List.dropWhile_cons_of_neg hb]
    rw [h] at hle
    simp only [List.length_cons] at hle ⊢
    omega
  · simp

/-- A 1 Hz trajectory: speed 1.0 km/h at indices 0 to 34, then speed
20 km/h at index 35.  The low-speed run spans 35 s. -/
def oneHzStopLogs : List GpsLog :=
  (List.range 36).map (fun i => ⟨some (if i < 35 then 1 else 20), (i : ℚ)⟩)

/-- A 1 Hz trajectory with a low-speed run of only 20 s. -/
def shortStopLogs : List GpsLog :=
  (List.range 21).map (fun i => ⟨some (if i < 20 then 1 else 20), (i : ℚ)⟩)

/-- A feature dictionary (string-keyed Python dict of floats). -/
abbrev FeatureMap := List (String × ℚ)

/-- The Python dictionary read `d.get(k, dflt)`. -/
def dictGetD (d : FeatureMap) (k : String) (dflt : ℚ) : ℚ :=
  (d.lookup k).getD dflt

/-- The rule fallback of `predict_mode` in `app/services/ml_service.py`,
taken when the module-level `model` is `None`. -/
def modeFallback (features : FeatureMap) : String :=
  let avg_speed := dictGetD features "avg_speed" 0
  if avg_speed < 5 then "walk"
  else if avg_speed < 15 then "bike"
  else if avg_speed < 40 then "bus"
  else "car"

/-- The module-level FEATURES list of `ml_service.py`. -/
def FEATURES : List String :=
  ["avg_speed", "max_speed", "std_speed", "avg_acceleration",
   "stop_frequency", "distance_km"]

/-- An opaque mode-model artifact (the pickled object behind
`mode_model.pkl`). -/
inductive ModeModel
  | fromFile (tag : ℕ)
deriving DecidableEq

/-- An opaque label-encoder artifact (`label_encoder.pkl`). -/
inductive LabelEncoder
  | fromFile (tag : ℕ)
deriving DecidableEq

/-- The sklearn numeric layer seen by `predict_mode`: model inference
and label decoding are third-party calls that may raise. -/
structure ModeEnv where
  modelPredict : ModeModel → List ℚ → Except Unit ℕ
  encoderInverse : LabelEncoder → ℕ → Except Unit String

/-- The body of the try-block of `predict_mode`: load the label
encoder, build the feature row in FEATURES order with 0.0 defaults, run
the model, decode the label.  Any step may raise. -/
def modeInfer (env : ModeEnv) (m : ModeModel)
    (encoderFile : Except Unit LabelEncoder) (features : FeatureMap) :
    Except Unit String := do
  let enc ← encoderFile
  let row := FEATURES.map (fun f => dictGetD features f 0)
  let code ← env.modelPredict m row
  let lbl ← env.encoderInverse enc code
  pure lbl

/-- `predict_mode` of `ml_service.py`: rule fallback when no model is
loaded; otherwise run inference and return the sentinel string
"unknown" when the try-block raises. -/
def predictMode (env : ModeEnv) (model : Option ModeModel)
    (encoderFile : Except Unit LabelEncoder) (features : FeatureMap) : String :=
  match model with
  | none => modeFallback features
  | some m =>
    match modeInfer env m encoderFile features with
    | Except.ok s => s
    | Except.error _ => "unknown"

/-- The module-level state read by `predict_mode`: the loaded model and
the encoder artifact on disk (re-read by `joblib.load` on each call). -/
structure ModeState where
  model : Option ModeModel
  encoderFile : Except Unit LabelEncoder

/-- `predict_mode` with its state threaded explicitly: the function
body contains no assignment to module state, so every branch returns
the state it was given. -/
def predictModeS (env : ModeEnv) (st : ModeState) (features : FeatureMap) :
    String × ModeState :=
  match st.model with
  | none => (modeFallback features, st)
  | some m =>
    match modeInfer env m st.encoderFile features with
    | Except.ok s => (s, st)
    | Except.error _ => ("unknown", st)

/-- The fixed 21-name feature order of `_prepare_feature_vector` in
`app/services/trip_detection_ml.py`. -/
def feature_order : List String :=
  ["accel_mean", "accel_std", "accel_max", "accel_min", "accel_median",
   "accel_q75", "accel_q25", "gyro_mean", "gyro_std", "gyro_max",
   "accel_variance", "accel_skewness", "accel_kurtosis",
   "speed_mean", "speed_std", "speed_max",
   "data_points", "time_span",
   "high_motion_ratio", "low_motion_ratio", "motion_consistency"]

/-- `_prepare_feature_vector`: serialize a feature dict into the fixed
order with 0.0 defaults. -/
def prepareFeatureVector (features : FeatureMap) : List ℚ :=
  feature_order.map (fun key => dictGetD features key 0)

/-- `_fallback_trip_start_detection`: the rule path for trip-start. -/
def fallbackTripStart (features : FeatureMap) : Bool × ℚ :=
  let accel_mean := dictGetD features "accel_mean" 0
  let accel_std := dictGetD features "accel_std" 0
  let speed_mean := dictGetD features "speed_mean" 0
  let high_motion_ratio := dictGetD features "high_motion_ratio" 0
  let is_starting :=
    decide (1.0 < accel_mean) && decide (0.5 < accel_std) &&
    decide (1.0 < speed_mean) && decide (0.3 < high_motion_ratio)
  (is_starting, if is_starting then 0.6 else 0.4)

/-- `_fallback_trip_end_detection`: the rule path for trip-end. -/
def fallbackTripEnd (features : FeatureMap) : Bool × ℚ :=
  let accel_mean := dictGetD features "accel_mean" 0
  let speed_mean := dictGetD features "speed_mean" 0
  let low_motion_ratio := dictGetD features "low_motion_ratio" 0
  let is_ending :=
    decide (accel_mean < 0.8) && decide (speed_mean < 2.0) &&
    decide (0.7 < low_motion_ratio)
  (is_ending, if is_ending then 0.7 else 0.3)

/-- A random-forest artifact of the boundary detector: loaded from
disk, freshly constructed (not yet fitted), or fitted on a corpus. -/
inductive RFModel
  | fromFile (tag : ℕ)
  | unfit
  | fit (X : List (List ℚ)) (y : List Bool)
deriving DecidableEq

/-- The `StandardScaler` held by `TripDetectionML`: fresh from the
constructor, loaded from disk, or fitted on a matrix. -/
inductive ScalerState
  | fresh
  | fromFile (tag : ℕ)
  | fitted (X : List (List ℚ))
deriving DecidableEq

/-- The mutable fields of a `TripDetectionML` instance. -/
structure MLState where
  start_model : Option RFModel
  end_model : Option RFModel
  scaler : ScalerState
  is_trained : Bool
deriving DecidableEq

/-- The sklearn numeric layer seen by the boundary predictors: scaler
transform and random-forest inference are third-party calls that may
raise. -/
structure TripEnv where
  scalerTransform : ScalerState → List ℚ → Except Unit (List ℚ)
  rfPredict : RFModel → List ℚ → Except Unit Bool
  rfProba : RFModel → List ℚ → Except Unit ℚ

/-- The body of the try-block shared by `predict_trip_start` and
`predict_trip_end`: prepare the vector, scale it, predict, and take
the max class probability. -/
def tripInfer (env : TripEnv) (model : RFModel) (scaler : ScalerState)
    (features : FeatureMap) : Except Unit (Bool × ℚ) := do
  let v := prepareFeatureVector features
  let vs ← env.scalerTransform scaler v
  let p ← env.rfPredict model vs
  let c ← env.rfProba model vs
  pure (p, c)

/-- `predict_trip_start`: rule fallback when untrained or no start
model; otherwise inference, degrading to the rule path on exception. -/
def predictTripStart (env : TripEnv) (st : MLState) (features : FeatureMap) :
    Bool × ℚ :=
  match st.is_trained, st.start_model with
  | true, some m =>
    match tripInfer env m st.scaler features with
    | Except.ok r => r
    | Except.error _ => fallbackTripStart features
  | _, _ => fallbackTripStart features

/-- `predict_trip_end`: rule fallback when untrained or no end model;
otherwise inference, degrading to the rule path on exception. -/
def predictTripEnd (env : TripEnv) (st : MLState) (features : FeatureMap) :
    Bool × ℚ :=
  match st.is_trained, st.end_model with
  | true, some m =>
    match tripInfer env m st.scaler features with
    | Except.ok r => r
    | Except.error _ => fallbackTripEnd features
  | _, _ => fallbackTripEnd features

/-- `predict_trip_start` with its state threaded explicitly: the method
assigns no field of `self`, so every branch returns its input state. -/
def predictTripStartS (env : TripEnv) (st : MLState) (features : FeatureMap) :
    (Bool × ℚ) × MLState :=
  match st.is_trained, st.start_model with
  | true, some m =>
    match tripInfer env m st.scaler features with
    | Except.ok r => (r, st)
    | Except.error _ => (fallbackTripStart features, st)
  | _, _ => (fallbackTripStart features, st)

/-- `predict_trip_end` with its state threaded explicitly. -/
def predictTripEndS (env : TripEnv) (st : MLState) (features : FeatureMap) :
    (Bool × ℚ) × MLState :=
  match st.is_trained, st.end_model with
  | true, some m =>
    match tripInfer env m st.scaler features with
    | Except.ok r => (r, st)
    | Except.error _ => (fallbackTripEnd features, st)
  | _, _ => (fallbackTripEnd features, st)

/-- The artifact files seen by `_load_models`: each path is absent
(`none`), present and loadable, or present but raising on load. -/
structure ModelFS where
  startFile : Option (Except Unit RFModel)
  endFile : Option (Except Unit RFModel)
  scalerFile : Option (Except Unit ScalerState)

/-- The final step of `_load_models`: `is_trained` is set only when
both models are (truthy) present. -/
def setTrained (st : MLState) : MLState :=
  if st.start_model.isSome && st.end_model.isSome then
    { st with is_trained := true }
  else st

/-- Scaler-loading step of `_load_models`; a raise aborts the rest of
the try-block, so the `is_trained` check is skipped. -/
def loadScalerStep (st : MLState) (fs : ModelFS) : MLState :=
  match fs.scalerFile with
  | none => setTrained st
  | some (Except.ok sc) => setTrained { st with scaler := sc }
  | some (Except.error _) => st

/-- End-model loading step of `_load_models`. -/
def loadEndStep (st : MLState) (fs : ModelFS) : MLState :=
  match fs.endFile with
  | none => loadScalerStep st fs
  | some (Except.ok m) => loadScalerStep { st with end_model := some m } fs
  | some (Except.error _) => st

/-- `_load_models`, run from the constructor state: load start model,
end model and scaler inside one try/except (a raise abandons the rest),
then set `is_trained` when both models are present. -/
def loadModels (fs : ModelFS) : MLState :=
  let st0 : MLState := ⟨none, none, ScalerState.fresh, false⟩
  match fs.startFile with
  | none => loadEndStep st0 fs
  | some (Except.ok m) => loadEndStep { st0 with start_model := some m } fs
  | some (Except.error _) => st0

/-- One element of the corpus passed to `train_models`. -/
structure TrainingExample where
  features : FeatureMap
  trip_start_label : Bool
  trip_end_label : Bool
deriving DecidableEq

/-- The fallible steps inside the try-block of `train_models`; the
oracle says which third-party call (if any) raises. -/
inductive TrainThrow
  | scalerFit
  | split
  | startFit
  | endFit
  | score
  | dumpStart
  | dumpEnd
  | dumpScaler
deriving DecidableEq

/-- `train_models`: reject a corpus below 100 examples; otherwise run
the pipeline, mutating `self` step by step exactly as the source does
(`scaler` is refitted in place, each model field is assigned a fresh
classifier and then fitted).  A raise at step `t` is caught by the
except-block and reported as `false`, keeping every mutation already
performed. -/
def trainModels (st : MLState) (training_data : List TrainingExample)
    (throws : Option TrainThrow) : Bool × MLState :=
  if training_data.length < 100 then (false, st)
  else
    let X := training_data.map (fun e => prepareFeatureVector e.features)
    let y_start := training_data.map (fun e => e.trip_start_label)
    let y_end := training_data.map (fun e => e.trip_end_label)
    if throws = some TrainThrow.scalerFit then (false, st)
    else
      let st1 := { st with scaler := ScalerState.fitted X }
      if throws = some TrainThrow.split then (false, st1)
      else
        let st2 := { st1 with start_model := some RFModel.unfit }
        if throws = some TrainThrow.startFit then (false, st2)
        else
          let st3 := { st2 with start_model := some (RFModel.fit X y_start) }
          let st4 := { st3 with end_model := some RFModel.unfit }
          if throws = some TrainThrow.endFit then (false, st4)
          else
            let st5 := { st4 with end_model := some (RFModel.fit X y_end) }
            if throws = some TrainThrow.score ∨ throws = some TrainThrow.dumpStart
                ∨ throws = some TrainThrow.dumpEnd
                ∨ throws = some TrainThrow.dumpScaler then (false, st5)
            else (true, { st5 with is_trained := true })

/-- Fuel-driven binary search for the integer square root: the largest
`r` in `[lo, hi]` with `r * r ≤ n`, assuming `lo` already satisfies
the bound. -/
def isqrtGo (n : ℕ) : ℕ → ℕ → ℕ → ℕ
  | 0, lo, _ => lo
  | fuel + 1, lo, hi =>
    if hi ≤ lo then lo
    else
      let mid := (lo + hi + 1) / 2
      if mid * mid ≤ n then isqrtGo n fuel mid hi
      else isqrtGo n fuel lo (mid - 1)

/-- Integer square root (largest `r` with `r * r ≤ n`), written to
evaluate by kernel reduction. -/
def isqrt (n : ℕ) : ℕ := isqrtGo n (n + 1) 0 n

/-- Rational square root standing for the float `np.sqrt`: exact on
every rational whose reduced numerator and denominator are perfect
squares (all concrete inputs in this file have that shape). -/
def ratSqrt (q : ℚ) : ℚ :=
  (isqrt q.num.toNat : ℚ) / (isqrt q.den : ℚ)

/-- Absolute value on ℚ, written so that it evaluates by reduction. -/
def absQ (a : ℚ) : ℚ := if a < 0 then -a else a

/-- `np.mean`. -/
def mean (xs : List ℚ) : ℚ := xs.sum / (xs.length : ℚ)

/-- `np.var` (population variance). -/
def variance (xs : List ℚ) : ℚ :=
  mean (xs.map (fun x => (x - mean xs) * (x - mean xs)))

/-- `np.std` (population standard deviation). -/
def stddev (xs : List ℚ) : ℚ := ratSqrt (variance xs)

/-- `np.max` over a nonempty array (0 as unreachable default). -/
def listMax : List ℚ → ℚ
  | [] => 0
  | x :: t => t.foldl (fun a b => if a ≤ b then b else a) x

/-- `np.min` over a nonempty array (0 as unreachable default). -/
def listMin : List ℚ → ℚ
  | [] => 0
  | x :: t => t.foldl (fun a b => if b ≤ a then b else a) x

/-- Insert into a sorted list (ascending). -/
def insertSorted (x : ℚ) : List ℚ → List ℚ
  | [] => [x]
  | y :: t => if x ≤ y then x :: y :: t else y :: insertSorted x t

/-- Ascending sort, modelling the sort inside `np.percentile`. -/
def sortRats (xs : List ℚ) : List ℚ := xs.foldr insertSorted []

/-- `np.percentile` with the default linear interpolation. -/
def percentileLin (xs : List ℚ) (q : ℚ) : ℚ :=
  let s := sortRats xs
  let n := s.length
  if n = 0 then 0
  else
    let pos : ℚ := ((n : ℚ) - 1) * q / 100
    let f : ℕ := pos.floor.toNat
    let frac : ℚ := pos - (f : ℚ)
    let a := s.getD f 0
    let b := s.getD (f + 1) a
    a + frac * (b - a)

/-- `_skewness` of `TripDetectionML`: third standardized moment,
0.0 below 3 samples or at zero standard deviation. -/
def skewness (xs : List ℚ) : ℚ :=
  if xs.length < 3 then 0
  else
    let μ := mean xs
    let σ := stddev xs
    if σ = 0 then 0
    else mean (xs.map (fun x => ((x - μ) / σ) * ((x - μ) / σ) * ((x - μ) / σ)))

/-- `_kurtosis` of `TripDetectionML`: fourth standardized moment minus
3, 0.0 below 4 samples or at zero standard deviation. -/
def kurtosis (xs : List ℚ) : ℚ :=
  if xs.length < 4 then 0
  else
    let μ := mean xs
    let σ := stddev xs
    if σ = 0 then 0
    else
      mean (xs.map (fun x =>
        ((x - μ) / σ) * ((x - μ) / σ) * ((x - μ) / σ) * ((x - μ) / σ))) - 3

/-- One inertial reading passed to `extract_motion_features`; missing
dictionary keys are `none` (the code reads them with `get(k, 0)`,
except `timestamp`, accessed unconditionally). -/
structure MotionSample where
  acceleration_x : Option ℚ := none
  acceleration_y : Option ℚ := none
  acceleration_z : Option ℚ := none
  gyroscope_x : Option ℚ := none
  gyroscope_y : Option ℚ := none
  gyroscope_z : Option ℚ := none
  speed : Option ℚ := none
  timestamp : ℚ
deriving DecidableEq

/-- `np.abs(accel_magnitude - 9.81)`: gravity-removed acceleration
magnitudes of a window. -/
def netAcceleration (w : List MotionSample) : List ℚ :=
  w.map (fun d =>
    absQ (ratSqrt ((d.acceleration_x.getD 0) * (d.acceleration_x.getD 0)
      + (d.acceleration_y.getD 0) * (d.acceleration_y.getD 0)
      + (d.acceleration_z.getD 0) * (d.acceleration_z.getD 0)) - 9.81))

/-- Gyroscope magnitudes of a window. -/
def gyroMagnitude (w : List MotionSample) : List ℚ :=
  w.map (fun d =>
    ratSqrt ((d.gyroscope_x.getD 0) * (d.gyroscope_x.getD 0)
      + (d.gyroscope_y.getD 0) * (d.gyroscope_y.getD 0)
      + (d.gyroscope_z.getD 0) * (d.gyroscope_z.getD 0)))

/-- `extract_motion_features` of `TripDetectionML`: empty dict below 10
samples, otherwise the 21-entry feature dict in source order. -/
def extract_motion_features (sensor_data : List MotionSample) :
    List (String × ℚ) :=
  if sensor_data.isEmpty || sensor_data.length < 10 then []
  else
    let net := netAcceleration sensor_data
    let gyro := gyroMagnitude sensor_data
    let speeds := sensor_data.filterMap (fun d => d.speed)
    [("accel_mean", mean net),
     ("accel_std", stddev net),
     ("accel_max", listMax net),
     ("accel_min", listMin net),
     ("accel_median", percentileLin net 50),
     ("accel_q75", percentileLin net 75),
     ("accel_q25", percentileLin net 25),
     ("gyro_mean", mean gyro),
     ("gyro_std", stddev gyro),
     ("gyro_max", listMax gyro),
     ("accel_variance", variance net),
     ("accel_skewness", skewness net),
     ("accel_kurtosis", kurtosis net),
     ("speed_mean", if 0 < speeds.length then mean speeds else 0),
     ("speed_std", if 0 < speeds.length then stddev speeds else 0),
     ("speed_max", if 0 < speeds.length then listMax speeds else 0),
     ("data_points", (sensor_data.length : ℚ)),
     ("time_span",
      if 1 < sensor_data.length then
        ((sensor_data.getLast?.map (fun d => d.timestamp)).getD 0
          - (sensor_data.head?.map (fun d => d.timestamp)).getD 0)
      else 0),
     ("high_motion_ratio",
      (net.countP (fun x => decide (2.0 < x)) : ℚ) / (net.length : ℚ)),
     ("low_motion_ratio",
      (net.countP (fun x => decide (x < 0.5)) : ℚ) / (net.length : ℚ)),
     ("motion_consistency", 1 - stddev net / (mean net + 1 / 1000000))]

/-- The 21 motion-schema keys, in the dict order of the source. -/
def motionSchema : List String :=
  ["accel_mean", "accel_std", "accel_max", "accel_min", "accel_median",
   "accel_q75", "accel_q25", "gyro_mean", "gyro_std", "gyro_max",
   "accel_variance", "accel_skewness", "accel_kurtosis",
   "speed_mean", "speed_std", "speed_max",
   "data_points", "time_span",
   "high_motion_ratio", "low_motion_ratio", "motion_consistency"]

/-- A 10-sample window: nine readings at exactly gravity and one
outlier, giving net accelerations of nine zeros and one 10, hence a
standard deviation three times the mean and a negative
motion-consistency value. -/
def negConsistencyWindow : List MotionSample :=
  (List.range 10).map (fun i =>
    { acceleration_x := some (if i = 9 then 19.81 else 9.81),
      timestamp := (i : ℚ) })

/-- A 9-sample window (below the size threshold). -/
def nineWindow : List MotionSample :=
  (List.range 9).map (fun i =>
    { acceleration_x := some 9.81, timestamp := (i : ℚ) })

/-- Concrete mode environment whose third-party calls all raise. -/
def failingModeEnv : ModeEnv :=
  ⟨fun _ _ => Except.error (), fun _ _ => Except.error ()⟩

/-- Concrete boundary environment whose third-party calls all raise. -/
def failingTripEnv : TripEnv :=
  ⟨fun _ _ => Except.error (), fun _ _ => Except.error (),
   fun _ _ => Except.error ()⟩

/-- A state with all three artifacts loaded from disk and trained. -/
def loadedState : MLState :=
  ⟨some (RFModel.fromFile 1), some (RFModel.fromFile 2),
   ScalerState.fromFile 3, true⟩

/-- A corpus of 100 identical examples. -/
def corpus100 : List TrainingExample :=
  List.replicate 100 ⟨[], false, false⟩

/-- A single fast sample, used as a prefix. -/
def fastPrefixLogs : List GpsLog := [⟨some 20, 0⟩]

/-- Forty slow samples spanning 40 s. -/
def longSlowTail : List GpsLog :=
  (List.range 40).map (fun i => ⟨some 1, (1 + i : ℚ)⟩)

/-- A filesystem holding only the trip-start artifact. -/
def fsOnlyStart : ModelFS :=
  ⟨some (Except.ok (RFModel.fromFile 1)), none, none⟩

theorem dropWhile_length_le (p : GpsLog → Bool) (l : List GpsLog) :
    (l.dropWhile p).length ≤ l.length := by
  induction l with
  | nil => simp [List.dropWhile]
  | cons b t ih =>
    by_cases hb : p b
    · rw [List.dropWhile_cons_of_pos hb]; simp; omega
    · rw [List.dropWhile_cons_of_neg hb]

theorem stopRun_eq_dropWhile (t0 : ℚ) (xs : List GpsLog) :
    stopRun t0 xs =
      match xs.dropWhile isSlow with
      | [] => 0
      | a :: ys => (if 30 ≤ a.timestamp - t0 then 1 else 0) + stopCount ys := by
  induction xs with
  | nil => simp [stopRun, List.dropWhile]
  | cons l rest ih =>
    by_cases h : isSlow l
    · rw [stopRun, if_pos h, List.dropWhile_cons_of_pos h, ih]
    · rw [stopRun, if_neg h, List.dropWhile_cons_of_neg h]

theorem stopCount_eq_specStopFreq (logs : List GpsLog) :
    stopCount logs = specStopFreq logs := by
  suffices h : ∀ (n : ℕ) (logs : List GpsLog), logs.length ≤ n →
      stopCount logs = specStopFreq logs from h logs.length logs le_rfl
  intro n
  induction n with
  | zero =>
    intro logs hlen
    match logs with
    | [] => simp [stopCount, specStopFreq]
    | l :: rest => simp at hlen
  | succ n ih =>
    intro logs hlen
    match logs with
    | [] => simp [stopCount, specStopFreq]
    | l :: rest =>
      simp only [List.length_cons] at hlen
      by_cases hs : isSlow l
      · rw [stopCount, if_pos hs, stopRun_eq_dropWhile, specStopFreq, if_pos hs]
        cases hd : rest.dropWhile isSlow with
        | nil => simp
        | cons a ys =>
          have hle : (rest.dropWhile isSlow).length ≤ rest.length :=
            dropWhile_length_le isSlow rest
          rw [hd] at hle
          simp only [List.length_cons] at hle
          have := ih ys (by omega)
          simp [this]
      · rw [stopCount, if_neg hs, specStopFreq, if_neg hs]
        exact ih rest (by omega)

theorem stopRun_all_slow (t0 : ℚ) (xs : List GpsLog)
    (h : ∀ l ∈ xs, isSlow l = true) : stopRun t0 xs = 0 := by
  induction xs with
  | nil => simp [stopRun]
  | cons l rest ih =>
    have hl : isSlow l := h l (by simp)
    rw [stopRun, if_pos hl]
    exact ih (fun x hx => h x (by simp [hx]))

theorem stopCount_all_slow (xs : List GpsLog)
    (h : ∀ l ∈ xs, isSlow l = true) : stopCount xs = 0 := by
  match xs with
  | [] => simp [stopCount]
  | l :: rest =>
    have hl : isSlow l := h l (by simp)
    rw [stopCount, if_pos hl]
    exact stopRun_all_slow l.timestamp rest (fun x hx => h x (by simp [hx]))

theorem stop_append_slow_aux (slows : List GpsLog)
    (h : ∀ l ∈ slows, isSlow l = true) (logs : List GpsLog) :
    stopCount (logs ++ slows) = stopCount logs
    ∧ ∀ t0 : ℚ, stopRun t0 (logs ++ slows) = stopRun t0 logs := by
  induction logs with
  | nil =>
    refine ⟨?_, fun t0 => ?_⟩
    · rw [List.nil_append, stopCount_all_slow slows h, stopCount]
    · rw [List.nil_append, stopRun_all_slow t0 slows h, stopRun]
  | cons l rest ih =>
    constructor
    · by_cases hl : isSlow l
      · rw [List.cons_append, stopCount, if_pos hl, stopCount, if_pos hl]
        exact ih.2 l.timestamp
      · rw [List.cons_append, stopCount, if_neg hl, stopCount, if_neg hl]
        exact ih.1
    · intro t0
      by_cases hl : isSlow l
      · rw [List.cons_append, stopRun, if_pos hl, stopRun, if_pos hl]
        exact ih.2 t0
      · rw [List.cons_append, stopRun, if_neg hl, stopRun, if_neg hl, ih.1]

/-- Claim C3: the stop-frequency scan counts exactly the maximal runs
of consecutive samples with speed below 2.0 km/h whose
first-to-first-after timestamp delta is at least 30 s, in a greedy
left-to-right pass; a 1 Hz sequence slow at indices 0 to 34 and fast
afterwards gives one stop, and a 20 s run gives none. -/
theorem stop_frequency_matches_run_spec :
    (∀ logs : List GpsLog, stopCount logs = specStopFreq logs)
    ∧ stopCount oneHzStopLogs = 1
    ∧ stopCount shortStopLogs = 0 :=
  ⟨stopCount_eq_specStopFreq, by decide, by decide⟩

/-- Witness instantiating the stop-frequency equivalence at a concrete
trajectory. -/
theorem stop_frequency_matches_run_spec_witness :
    stopCount oneHzStopLogs = specStopFreq oneHzStopLogs :=
  stop_frequency_matches_run_spec.1 oneHzStopLogs

/-- Claim C9: a run of consecutive slow samples that extends to the end
of the trajectory never increments the stop count, whatever its
duration, because a run is only measured against the timestamp of the
first sample after it. -/
theorem trailing_slow_run_not_counted (logs slows : List GpsLog)
    (h : ∀ l ∈ slows, isSlow l = true) :
    stopCount (logs ++ slows) = stopCount logs :=
  (stop_append_slow_aux slows h logs).1

/-- Witness for the trailing-run theorem: one fast sample followed by a
40 s slow run yields the same count as the fast sample alone. -/
theorem trailing_slow_run_not_counted_witness :
    stopCount (fastPrefixLogs ++ longSlowTail) = stopCount fastPrefixLogs :=
  trailing_slow_run_not_counted fastPrefixLogs longSlowTail (by decide)

/-- Claim C4: with no mode model loaded, `predict_mode` classifies by
the strict thresholds 5, 15, 40 on `avg_speed`, and the boundary
examples 4.9, 5.1, 39.9, 40.1 land on walk, bike, bus, car. -/
theorem predict_mode_fallback_thresholds :
    (∀ (env : ModeEnv) (encFile : Except Unit LabelEncoder) (f : FeatureMap),
      (predictMode env none encFile f = "walk" ↔ dictGetD f "avg_speed" 0 < 5)
      ∧ (predictMode env none encFile f = "bike" ↔
          5 ≤ dictGetD f "avg_speed" 0 ∧ dictGetD f "avg_speed" 0 < 15)
      ∧ (predictMode env none encFile f = "bus" ↔
          15 ≤ dictGetD f "avg_speed" 0 ∧ dictGetD f "avg_speed" 0 < 40)
      ∧ (predictMode env none encFile f = "car" ↔ 40 ≤ dictGetD f "avg_speed" 0))
    ∧ predictMode failingModeEnv none (Except.error ()) [("avg_speed", 4.9)] = "walk"
    ∧ predictMode failingModeEnv none (Except.error ()) [("avg_speed", 5.1)] = "bike"
    ∧ predictMode failingModeEnv none (Except.error ()) [("avg_speed", 39.9)] = "bus"
    ∧ predictMode failingModeEnv none (Except.error ()) [("avg_speed", 40.1)] = "car" := by
  refine ⟨fun env encFile f => ?_, by decide, by decide, by decide, by decide⟩
  refine ⟨?_, ?_, ?_, ?_⟩ <;>
  · show modeFallback f = _ ↔ _
    simp only [modeFallback]
    split_ifs with h1 h2 h3 <;> simp_all <;> first
      | linarith
      | (intro h; linarith)

/-- Witness instantiating the threshold characterisation at a concrete
environment and empty feature dictionary. -/
theorem predict_mode_fallback_thresholds_witness :
    predictMode failingModeEnv none (Except.error ()) [] = "walk"
      ↔ dictGetD [] "avg_speed" 0 < 5 :=
  (predict_mode_fallback_thresholds.1 failingModeEnv (Except.error ()) []).1

/-- Claim C1, counterexample: with a mode model loaded and an inference
path that raises (the label-encoder load fails), `predict_mode` returns
the sentinel "unknown", which differs from the rule-fallback result
"walk" on the same features — the claim that the rule fallback is
returned is false. -/
theorem predict_mode_exception_cex :
    predictMode failingModeEnv (some (ModeModel.fromFile 0)) (Except.error ())
      [("avg_speed", 0)] = "unknown"
    ∧ modeFallback [("avg_speed", 0)] = "walk"
    ∧ predictMode failingModeEnv (some (ModeModel.fromFile 0)) (Except.error ())
        [("avg_speed", 0)] ≠ modeFallback [("avg_speed", 0)] := by
  decide

/-- Claim C1, amended: an inference-time exception is always caught —
`predict_mode` returns the sentinel "unknown" (not the rule fallback),
while the boundary-detector predictions degrade to their rule
fallbacks. -/
theorem inference_exception_handling :
    (∀ (env : ModeEnv) (m : ModeModel) (encFile : Except Unit LabelEncoder)
      (f : FeatureMap),
      modeInfer env m encFile f = Except.error () →
      predictMode env (some m) encFile f = "unknown")
    ∧ (∀ (env : TripEnv) (st : MLState) (m : RFModel) (f : FeatureMap),
      st.is_trained = true → st.start_model = some m →
      tripInfer env m st.scaler f = Except.error () →
      predictTripStart env st f = fallbackTripStart f)
    ∧ (∀ (env : TripEnv) (st : MLState) (m : RFModel) (f : FeatureMap),
      st.is_trained = true → st.end_model = some m →
      tripInfer env m st.scaler f = Except.error () →
      predictTripEnd env st f = fallbackTripEnd f) := by
  refine ⟨fun env m encFile f h => ?_, fun env st m f h1 h2 h3 => ?_,
    fun env st m f h1 h2 h3 => ?_⟩
  · simp [predictMode, h]
  · simp [predictTripStart, h1, h2, h3]
  · simp [predictTripEnd, h1, h2, h3]

/-- Witness for the exception-handling theorem at a concrete failing
environment and a fully loaded state. -/
theorem inference_exception_handling_witness :
    predictMode failingModeEnv (some (ModeModel.fromFile 0)) (Except.error ())
      [] = "unknown"
    ∧ predictTripStart failingTripEnv loadedState [] = fallbackTripStart []
    ∧ predictTripEnd failingTripEnv loadedState [] = fallbackTripEnd [] :=
  ⟨inference_exception_handling.1 failingModeEnv (ModeModel.fromFile 0)
      (Except.error ()) [] rfl,
   inference_exception_handling.2.1 failingTripEnv loadedState
      (RFModel.fromFile 1) [] rfl rfl rfl,
   inference_exception_handling.2.2 failingTripEnv loadedState
      (RFModel.fromFile 2) [] rfl rfl rfl⟩

/-- Claim C5, counterexample: the trip-start rule requires
`accel_mean > 1.0` while the trip-end rule requires `accel_mean < 0.8`,
so no feature dictionary can make both rules fire — the claim that both
may be true for the same feature vector is false. -/
theorem boundary_rules_never_both_cex :
    ¬ ∃ f : FeatureMap,
      (fallbackTripStart f).1 = true ∧ (fallbackTripEnd f).1 = true := by
  rintro ⟨f, hs, he⟩
  simp only [fallbackTripStart, fallbackTripEnd, Bool.and_eq_true,
    decide_eq_true_eq] at hs he
  linarith [hs.1.1.1, he.1.1]

/-- Claim C5, amended: the trip-start rule fires exactly on
`accel_mean > 1.0 ∧ accel_std > 0.5 ∧ speed_mean > 1.0 ∧
high_motion_ratio > 0.3` with confidence 0.6 / 0.4, the trip-end rule
exactly on `accel_mean < 0.8 ∧ speed_mean < 2.0 ∧
low_motion_ratio > 0.7` with confidence 0.7 / 0.3, missing keys read as
0; the two rules are evaluated independently, yet they can never both
fire, because the accel_mean bounds are incompatible. -/
theorem boundary_fallback_rules (f : FeatureMap) :
    ((fallbackTripStart f).1 = true ↔
      1 < dictGetD f "accel_mean" 0 ∧ 0.5 < dictGetD f "accel_std" 0
      ∧ 1 < dictGetD f "speed_mean" 0 ∧ 0.3 < dictGetD f "high_motion_ratio" 0)
    ∧ ((fallbackTripStart f).2 = if (fallbackTripStart f).1 then 0.6 else 0.4)
    ∧ ((fallbackTripEnd f).1 = true ↔
      dictGetD f "accel_mean" 0 < 0.8 ∧ dictGetD f "speed_mean" 0 < 2
      ∧ 0.7 < dictGetD f "low_motion_ratio" 0)
    ∧ ((fallbackTripEnd f).2 = if (fallbackTripEnd f).1 then 0.7 else 0.3)
    ∧ ¬((fallbackTripStart f).1 = true ∧ (fallbackTripEnd f).1 = true) := by
  refine ⟨?_, ?_, ?_, ?_, ?_⟩
  · simp only [fallbackTripStart, Bool.and_eq_true, decide_eq_true_eq]
    norm_num
    tauto
  · simp only [fallbackTripStart]
  · simp only [fallbackTripEnd, Bool.and_eq_true, decide_eq_true_eq]
    norm_num
    tauto
  · simp only [fallbackTripEnd]
  · rintro ⟨hs, he⟩
    simp only [fallbackTripStart, fallbackTripEnd, Bool.and_eq_true,
      decide_eq_true_eq] at hs he
    linarith [hs.1.1.1, he.1.1]

/-- Witness instantiating the boundary-rule characterisation at the
empty feature dictionary. -/
theorem boundary_fallback_rules_witness :
    ¬((fallbackTripStart []).1 = true ∧ (fallbackTripEnd []).1 = true) :=
  (boundary_fallback_rules []).2.2.2.2

/-- Claim C2, counterexample: with all three artifacts loaded, a corpus
of 100 examples and a raise during the start-model fit, `train_models`
returns false but the state is no longer the previous one — the scaler
was refit in place and the start model was replaced by a fresh unfitted
classifier before the raise, so the no-partial-overwrite part of the
claim is false. -/
theorem train_models_overwrite_cex :
    (trainModels loadedState corpus100 (some TrainThrow.startFit)).1 = false
    ∧ (trainModels loadedState corpus100 (some TrainThrow.startFit)).2
        ≠ loadedState
    ∧ (trainModels loadedState corpus100 (some TrainThrow.startFit)).2.start_model
        = some RFModel.unfit := by
  decide

/-- Claim C2, amended: `train_models` never raises and returns true
exactly when the corpus has at least 100 examples and no step throws;
an undersized corpus leaves the state fully unchanged, as does a throw
occurring before the scaler fit; on success `is_trained` becomes true.
A throw after the scaler fit can leave the in-memory artifacts
partially overwritten. -/
theorem train_models_amended (st : MLState) (data : List TrainingExample)
    (throws : Option TrainThrow) :
    ((trainModels st data throws).1 = true ↔ 100 ≤ data.length ∧ throws = none)
    ∧ (data.length < 100 → trainModels st data throws = (false, st))
    ∧ (throws = some TrainThrow.scalerFit → trainModels st data throws = (false, st))
    ∧ (100 ≤ data.length → throws = none →
        (trainModels st data throws).2.is_trained = true) := by
  unfold trainModels
  by_cases hlen : data.length < 100
  · simp only [if_pos hlen]
    refine ⟨?_, fun _ => by trivial, fun _ => by trivial, fun h _ => ?_⟩
    · simp
      omega
    · omega
  · simp only [if_neg hlen]
    rcases throws with _ | t
    · simp
      omega
    · cases t <;> simp <;> omega

/-- Witness for the amended training theorem: the empty corpus is
rejected without touching the state, and the 100-example corpus with no
throw trains successfully. -/
theorem train_models_amended_witness :
    trainModels loadedState [] none = (false, loadedState)
    ∧ (trainModels loadedState corpus100 none).2.is_trained = true :=
  ⟨(train_models_amended loadedState [] none).2.1 (by decide),
   (train_models_amended loadedState corpus100 none).2.2.2 (by decide) rfl⟩

/-- Claim C6: a motion window below 10 samples yields the empty mapping
and a window of 10 or more yields a mapping whose keys are exactly the
21 motion-schema names. -/
theorem extract_motion_features_window_contract (w : List MotionSample) :
    (w.length < 10 → extract_motion_features w = [])
    ∧ (10 ≤ w.length →
        (extract_motion_features w).map Prod.fst = motionSchema) := by
  constructor
  · intro h
    simp [extract_motion_features, h]
  · intro h
    have hempty : w.isEmpty = false := by
      cases w with
      | nil => simp at h
      | cons a t => rfl
    have hlt : ¬ w.length < 10 := by omega
    simp only [extract_motion_features, hempty, decide_eq_true_eq, if_neg hlt,
      Bool.false_or, if_neg hlt]
    rfl

/-- Witness for the window contract: a 9-sample window gives the empty
mapping, a 10-sample window gives all 21 keys. -/
theorem extract_motion_features_window_contract_witness :
    extract_motion_features nineWindow = []
    ∧ (extract_motion_features negConsistencyWindow).map Prod.fst = motionSchema :=
  ⟨(extract_motion_features_window_contract nineWindow).1 (by decide),
   (extract_motion_features_window_contract negConsistencyWindow).2 (by decide)⟩

/-- Claim C7: for every window of at least 10 samples the extractor
returns `motion_consistency` as `1 − std(net)/(mean(net) + 1e-6)` with
no clamping, and on a concrete window the returned value is negative. -/
theorem motion_consistency_unclamped :
    (∀ w : List MotionSample, 10 ≤ w.length →
      List.lookup "motion_consistency" (extract_motion_features w)
        = some (1 - stddev (netAcceleration w)
            / (mean (netAcceleration w) + 1 / 1000000)))
    ∧ (List.lookup "motion_consistency"
        (extract_motion_features negConsistencyWindow)).getD 0
        = -1999999 / 1000001
    ∧ (List.lookup "motion_consistency"
        (extract_motion_features negConsistencyWindow)).getD 0 < 0 := by
  refine ⟨fun w h => ?_, by decide, by decide⟩
  have hempty : w.isEmpty = false := by
    cases w with
    | nil => simp at h
    | cons a t => rfl
  have hlt : ¬ w.length < 10 := by omega
  simp only [extract_motion_features, hempty, decide_eq_true_eq, if_neg hlt,
    Bool.false_or]
  rfl

/-- Witness for the unclamped motion-consistency formula at the
concrete 10-sample window. -/
theorem motion_consistency_unclamped_witness :
    List.lookup "motion_consistency"
        (extract_motion_features negConsistencyWindow)
      = some (1 - stddev (netAcceleration negConsistencyWindow)
          / (mean (netAcceleration negConsistencyWindow) + 1 / 1000000)) :=
  motion_consistency_unclamped.1 negConsistencyWindow (by decide)

theorem predictTripStartS_state_eq (env : TripEnv) (st : MLState)
    (f : FeatureMap) : (predictTripStartS env st f).2 = st := by
  obtain ⟨sm, em, sc, tr⟩ := st
  cases tr with
  | false => rfl
  | true =>
    cases sm with
    | none => rfl
    | some m =>
      cases h : tripInfer env m sc f with
      | ok r => simp [predictTripStartS, h]
      | error e => simp [predictTripStartS, h]

theorem predictTripEndS_state_eq (env : TripEnv) (st : MLState)
    (f : FeatureMap) : (predictTripEndS env st f).2 = st := by
  obtain ⟨sm, em, sc, tr⟩ := st
  cases tr with
  | false => rfl
  | true =>
    cases em with
    | none => rfl
    | some m =>
      cases h : tripInfer env m sc f with
      | ok r => simp [predictTripEndS, h]
      | error e => simp [predictTripEndS, h]

theorem predictModeS_state_eq (env : ModeEnv) (st : ModeState)
    (f : FeatureMap) : (predictModeS env st f).2 = st := by
  obtain ⟨mm, ef⟩ := st
  cases mm with
  | none => rfl
  | some m =>
    cases h : modeInfer env m ef f with
    | ok s => simp [predictModeS, h]
    | error e => simp [predictModeS, h]

/-- Claim C8: with the loaded-artifact state fixed, every predict
operation leaves the state unchanged, and a second call on the state
returned by the first call yields the same result — both on the rule
path and on the model path. -/
theorem predict_idempotent (tenv : TripEnv) (menv : ModeEnv) (st : MLState)
    (ms : ModeState) (f : FeatureMap) :
    ((predictTripStartS tenv st f).2 = st
      ∧ (predictTripStartS tenv (predictTripStartS tenv st f).2 f).1
          = (predictTripStartS tenv st f).1)
    ∧ ((predictTripEndS tenv st f).2 = st
      ∧ (predictTripEndS tenv (predictTripEndS tenv st f).2 f).1
          = (predictTripEndS tenv st f).1)
    ∧ ((predictModeS menv ms f).2 = ms
      ∧ (predictModeS menv (predictModeS menv ms f).2 f).1
          = (predictModeS menv ms f).1) := by
  refine ⟨⟨predictTripStartS_state_eq tenv st f, ?_⟩,
    ⟨predictTripEndS_state_eq tenv st f, ?_⟩,
    ⟨predictModeS_state_eq menv ms f, ?_⟩⟩
  · rw [predictTripStartS_state_eq]
  · rw [predictTripEndS_state_eq]
  · rw [predictModeS_state_eq]

/-- Witness instantiating idempotence at a concrete environment, a
fully loaded state and the empty feature dictionary. -/
theorem predict_idempotent_witness :
    (predictTripStartS failingTripEnv loadedState []).2 = loadedState
    ∧ (predictTripStartS failingTripEnv
        (predictTripStartS failingTripEnv loadedState []).2 []).1
      = (predictTripStartS failingTripEnv loadedState []).1 :=
  (predict_idempotent failingTripEnv failingModeEnv loadedState
    ⟨none, Except.error ()⟩ []).1

theorem untrained_predicts_fallback (env : TripEnv) (st : MLState)
    (f : FeatureMap) (h : st.is_trained = false) :
    predictTripStart env st f = fallbackTripStart f
    ∧ predictTripEnd env st f = fallbackTripEnd f := by
  obtain ⟨sm, em, sc, tr⟩ := st
  simp only at h
  subst h
  exact ⟨rfl, rfl⟩

theorem loadModels_missing_start (fs : ModelFS) (h : fs.startFile = none) :
    (loadModels fs).is_trained = false := by
  obtain ⟨sf, ef, scf⟩ := fs
  simp only at h
  subst h
  rcases ef with _ | (e2 | m2) <;> rcases scf with _ | (e3 | m3) <;>
    simp [loadModels, loadEndStep, loadScalerStep, setTrained]

theorem loadModels_missing_end (fs : ModelFS) (h : fs.endFile = none) :
    (loadModels fs).is_trained = false := by
  obtain ⟨sf, ef, scf⟩ := fs
  simp only at h
  subst h
  rcases sf with _ | (e1 | m1) <;> rcases scf with _ | (e3 | m3) <;>
    simp [loadModels, loadEndStep, loadScalerStep, setTrained]

/-- Claim C10: `is_trained` becomes true at load time only when both
boundary models were loaded; a false `is_trained` forces both
predictions onto the rule path; hence with exactly one model artifact
present neither prediction uses a model. -/
theorem single_artifact_never_uses_model :
    (∀ fs : ModelFS, (loadModels fs).is_trained = true →
      (loadModels fs).start_model.isSome ∧ (loadModels fs).end_model.isSome)
    ∧ (∀ (env : TripEnv) (st : MLState) (f : FeatureMap),
        st.is_trained = false →
        predictTripStart env st f = fallbackTripStart f
        ∧ predictTripEnd env st f = fallbackTripEnd f)
    ∧ (∀ (env : TripEnv) (fs : ModelFS) (f : FeatureMap), fs.startFile = none →
        predictTripStart env (loadModels fs) f = fallbackTripStart f
        ∧ predictTripEnd env (loadModels fs) f = fallbackTripEnd f)
    ∧ (∀ (env : TripEnv) (fs : ModelFS) (f : FeatureMap), fs.endFile = none →
        predictTripStart env (loadModels fs) f = fallbackTripStart f
        ∧ predictTripEnd env (loadModels fs) f = fallbackTripEnd f) := by
  refine ⟨fun fs h => ?_,
    fun env st f h => untrained_predicts_fallback env st f h,
    fun env fs f h =>
      untrained_predicts_fallback env (loadModels fs) f
        (loadModels_missing_start fs h),
    fun env fs f h =>
      untrained_predicts_fallback env (loadModels fs) f
        (loadModels_missing_end fs h)⟩
  obtain ⟨sf, ef, scf⟩ := fs
  rcases sf with _ | (e1 | m1) <;> rcases ef with _ | (e2 | m2) <;>
    rcases scf with _ | (e3 | m3) <;>
    simp_all [loadModels, loadEndStep, loadScalerStep, setTrained]

/-- Witness for the single-artifact theorem: with only the start model
on disk, both predictions take the rule path. -/
theorem single_artifact_never_uses_model_witness :
    predictTripStart failingTripEnv (loadModels fsOnlyStart) []
      = fallbackTripStart []
    ∧ predictTripEnd failingTripEnv (loadModels fsOnlyStart) []
      = fallbackTripEnd [] :=
  single_artifact_never_uses_model.2.2.2 failingTripEnv fsOnlyStart [] rfl

end NextMove
